import Mathlib

/-!
Verification of the data-access core of the CS2 e-sport management system
(`src/main.py`, with the alternative GUI front end
`src/cs2_esport_project/cs2_esport_project/src/main_gui.py`).

The Python program talks to a MariaDB/MySQL store through a thin
`Database` wrapper.  Every mutation is a single parameterized SQL
statement; the statement *text* is assembled from fixed table/column
names (for the dynamic UPDATE builders, from a per-entity allowed-column
set) while the *values* travel separately as bound parameters.

The embedding below mirrors that structure:

* `Value` is the universe of scalar values the program passes to and
  from the store (NULL, integers, strings, booleans, dates, datetimes).
  The `Decimal` and `bytes` branches of the exporters are outside the
  temporal claims and are not modelled.
* `Stmt` is a parameterized statement: the SQL text plus the bound
  parameter list, exactly the pair handed to `cursor.execute`.
* Row structures carry the columns the data-access core reads or
  writes; display-only columns (e.g. `created_at`) are omitted.
* `Op`/`applyOp` is the repository surface (`CRUDOperations`): each
  operation maps a store state `DB` to the new state together with the
  list of write statements issued against the store.
-/

/-- Calendar date, as the driver's `date` objects carry it. -/
structure Date where
  year : Nat
  month : Nat
  day : Nat
  deriving DecidableEq, Repr

/-- Date-time to seconds precision: the stored precision of a DATETIME
column, and the precision of every temporal value the program round-trips. -/
structure DateTime where
  year : Nat
  month : Nat
  day : Nat
  hour : Nat
  minute : Nat
  second : Nat
  deriving DecidableEq, Repr

/-- Scalar values exchanged with the store. `null` is SQL NULL / Python
`None`. -/
inductive Value where
  | null
  | int (n : Int)
  | str (s : String)
  | bool (b : Bool)
  | vdate (d : Date)
  | vdatetime (dt : DateTime)
  deriving DecidableEq, Repr

/-- A parameterized statement: SQL text plus bound parameters, the pair
handed to `cursor.execute(query, params)`. -/
structure Stmt where
  text : String
  params : List Value
  deriving DecidableEq, Repr

/-- SQL text of a dynamic UPDATE, mirroring
`f"UPDATE {T} SET {', '.join(f'{k}=%s' for k in updates)} WHERE {pk}=%s"`
(src/main.py lines 133, 150, 179, 197). -/
def updateQuery (table : String) (cols : List String) (pkCol : String) : String :=
  "UPDATE " ++ table ++ " SET " ++
    String.intercalate ", " (cols.map (fun k => k ++ "=%s")) ++
    " WHERE " ++ pkCol ++ "=%s"

/-- The filtering step `{k: v for k, v in kw.items() if k in allowed}` of
every update method.  Keyword arguments have distinct keys and the dict
comprehension preserves their order, so a key-order-preserving list
filter is an exact model. -/
def filterAllowed (allowed : List String) (kw : List (String × Value)) :
    List (String × Value) :=
  kw.filter (fun p => allowed.contains p.1)

/-- Shared shape of `update_user` / `update_team` / `update_player` /
`update_tournament` (src/main.py lines 129-134, 146-151, 175-180,
193-198): filter the keyword map to the allowed set; if nothing is left
return the no-updatable-fields report (`return False` before any
statement, modelled as `none`); otherwise build one UPDATE whose SET
clause lists the filtered column names in map order and whose parameters
are the filtered values with the primary-key value appended last. -/
def buildUpdate (table pkCol : String) (allowed : List String)
    (pk : Nat) (kw : List (String × Value)) : Option Stmt :=
  let updates := filterAllowed allowed kw
  if updates.isEmpty then none
  else some ⟨updateQuery table (updates.map Prod.fst) pkCol,
             updates.map Prod.snd ++ [Value.int pk]⟩

/-- Allowed update columns of USERS (src/main.py line 130). -/
def usersAllowed : List String :=
  ["username", "email", "role", "password_hash", "last_login"]

/-- Allowed update columns of TEAMS (src/main.py line 147). -/
def teamsAllowed : List String :=
  ["team_name", "abbreviation", "country", "coach", "founded_date", "is_active"]

/-- Allowed update columns of PLAYERS (src/main.py line 176). -/
def playersAllowed : List String :=
  ["nickname", "team_id", "real_name", "nationality", "role", "birth_date", "is_active"]

/-- Allowed update columns of TOURNAMENTS (src/main.py line 194). -/
def tournamentsAllowed : List String :=
  ["tournament_name", "location", "start_date", "end_date", "prize_pool", "tier", "status"]

/-- Statement built by `CRUDOperations.update_user` (src/main.py 129-134). -/
def update_user (user_id : Nat) (kw : List (String × Value)) : Option Stmt :=
  buildUpdate "USERS" "user_id" usersAllowed user_id kw

/-- Statement built by `CRUDOperations.update_team` (src/main.py 146-151). -/
def update_team (team_id : Nat) (kw : List (String × Value)) : Option Stmt :=
  buildUpdate "TEAMS" "team_id" teamsAllowed team_id kw

/-- Statement built by `CRUDOperations.update_player` (src/main.py 175-180). -/
def update_player (player_id : Nat) (kw : List (String × Value)) : Option Stmt :=
  buildUpdate "PLAYERS" "player_id" playersAllowed player_id kw

/-- Statement built by `CRUDOperations.update_tournament` (src/main.py 193-198). -/
def update_tournament (tournament_id : Nat) (kw : List (String × Value)) : Option Stmt :=
  buildUpdate "TOURNAMENTS" "tournament_id" tournamentsAllowed tournament_id kw

/-- Row of USERS restricted to the columns the core writes or filters on. -/
structure UserRow where
  user_id : Nat
  username : Value
  password_hash : Value
  role : Value
  email : Value
  last_login : Value
  deriving DecidableEq, Repr

/-- Row of TEAMS. A freshly created team has `is_active` TRUE (schema default). -/
structure TeamRow where
  team_id : Nat
  team_name : Value
  abbreviation : Value
  country : Value
  coach : Value
  founded_date : Value
  is_active : Value
  deriving DecidableEq, Repr

/-- Row of PLAYERS. -/
structure PlayerRow where
  player_id : Nat
  nickname : Value
  team_id : Value
  real_name : Value
  nationality : Value
  role : Value
  birth_date : Value
  is_active : Value
  deriving DecidableEq, Repr

/-- Row of TOURNAMENTS. -/
structure TournamentRow where
  tournament_id : Nat
  tournament_name : Value
  location : Value
  start_date : Value
  end_date : Value
  prize_pool : Value
  tier : Value
  status : Value
  deriving DecidableEq, Repr

/-- Row of MATCHES. `winner_team_id` is a nullable foreign key. -/
structure MatchRow where
  match_id : Nat
  tournament_id : Nat
  team1_id : Nat
  team2_id : Nat
  score_team1 : Value
  score_team2 : Value
  match_date : Value
  best_of : Value
  stage : Value
  winner_team_id : Option Nat
  deriving DecidableEq, Repr

/-- The relational store: one list of rows per table. -/
structure DB where
  users : List UserRow
  teams : List TeamRow
  players : List PlayerRow
  tournaments : List TournamentRow
  matchesRows : List MatchRow
  deriving DecidableEq, Repr

/-- Effect of `SET k=%s` on a USERS row.  Only names from the allowed set
ever reach this point; `user_id` is not among them, so the key can never
change. -/
def UserRow.setField (u : UserRow) (k : String) (v : Value) : UserRow :=
  match k with
  | "username" => { u with username := v }
  | "email" => { u with email := v }
  | "role" => { u with role := v }
  | "password_hash" => { u with password_hash := v }
  | "last_login" => { u with last_login := v }
  | _ => u

/-- Effect of `SET k=%s` on a TEAMS row. -/
def TeamRow.setField (t : TeamRow) (k : String) (v : Value) : TeamRow :=
  match k with
  | "team_name" => { t with team_name := v }
  | "abbreviation" => { t with abbreviation := v }
  | "country" => { t with country := v }
  | "coach" => { t with coach := v }
  | "founded_date" => { t with founded_date := v }
  | "is_active" => { t with is_active := v }
  | _ => t

/-- Effect of `SET k=%s` on a PLAYERS row. -/
def PlayerRow.setField (p : PlayerRow) (k : String) (v : Value) : PlayerRow :=
  match k with
  | "nickname" => { p with nickname := v }
  | "team_id" => { p with team_id := v }
  | "real_name" => { p with real_name := v }
  | "nationality" => { p with nationality := v }
  | "role" => { p with role := v }
  | "birth_date" => { p with birth_date := v }
  | "is_active" => { p with is_active := v }
  | _ => p

/-- Effect of `SET k=%s` on a TOURNAMENTS row. -/
def TournamentRow.setField (t : TournamentRow) (k : String) (v : Value) : TournamentRow :=
  match k with
  | "tournament_name" => { t with tournament_name := v }
  | "location" => { t with location := v }
  | "start_date" => { t with start_date := v }
  | "end_date" => { t with end_date := v }
  | "prize_pool" => { t with prize_pool := v }
  | "tier" => { t with tier := v }
  | "status" => { t with status := v }
  | _ => t

/-- Sequential effect of a SET clause on one row. -/
def applyUserKw (u : UserRow) (updates : List (String × Value)) : UserRow :=
  updates.foldl (fun r p => r.setField p.1 p.2) u

/-- Sequential effect of a SET clause on one row. -/
def applyTeamKw (t : TeamRow) (updates : List (String × Value)) : TeamRow :=
  updates.foldl (fun r p => r.setField p.1 p.2) t

/-- Sequential effect of a SET clause on one row. -/
def applyPlayerKw (p : PlayerRow) (updates : List (String × Value)) : PlayerRow :=
  updates.foldl (fun r p => r.setField p.1 p.2) p

/-- Sequential effect of a SET clause on one row. -/
def applyTournamentKw (t : TournamentRow) (updates : List (String × Value)) : TournamentRow :=
  updates.foldl (fun r p => r.setField p.1 p.2) t

/-- Embedding of `get_team_by_id` (src/main.py line 144): a plain lookup
with no active-flag condition, so soft-deactivated teams stay retrievable. -/
def get_team_by_id (db : DB) (id : Nat) : Option TeamRow :=
  db.teams.find? (fun t => t.team_id == id)

/-- Embedding of `get_match_by_id` (src/main.py 217-220); the display-only
joined name columns are dropped. -/
def get_match_by_id (db : DB) (id : Nat) : Option MatchRow :=
  db.matchesRows.find? (fun m => m.match_id == id)

/-- Outcome reported by `delete_team`: either the soft-deactivation
fallback with the dependent count it prints, or hard removal. -/
inductive DeleteTeamResult where
  | softDeactivated (dependents : Nat)
  | hardDeleted
  deriving DecidableEq, Repr

/-- Embedding of `CRUDOperations.delete_team` (src/main.py 153-158).  The
dependent check is `SELECT player_id FROM PLAYERS WHERE team_id=%s` — it
has no `is_active` condition, so inactive players count as dependents
too.  Any dependent triggers `UPDATE TEAMS SET is_active=FALSE`;
otherwise the row is removed. -/
def delete_team (db : DB) (id : Nat) : DB × DeleteTeamResult :=
  let players := db.players.filter (fun p => p.team_id == Value.int id)
  if players.isEmpty then
    ({ db with teams := db.teams.filter (fun t => !(t.team_id == id)) },
     DeleteTeamResult.hardDeleted)
  else
    ({ db with teams := db.teams.map (fun t =>
        if t.team_id == id then { t with is_active := Value.bool false } else t) },
     DeleteTeamResult.softDeactivated players.length)

/-- Embedding of `CRUDOperations.create_match`'s guard and statement
(src/main.py 203-208): when the two team references are equal the method
returns `None` before any statement is built (`none` here); otherwise it
builds the one INSERT with the six bound parameters. -/
def create_match (tournament_id team1_id team2_id : Nat)
    (match_date best_of stage : Value) : Option Stmt :=
  if team1_id == team2_id then none
  else some ⟨"INSERT INTO MATCHES (tournament_id,team1_id,team2_id,match_date,best_of,stage) VALUES (%s,%s,%s,%s,%s,%s)",
             [Value.int tournament_id, Value.int team1_id, Value.int team2_id,
              match_date, best_of, stage]⟩

/-- Winner computation of the result-recording flow (src/main.py line 541):
`w = m['team1_id'] if s1 > s2 else (m['team2_id'] if s2 > s1 else None)`. -/
def computeWinner (team1_id team2_id : Nat) (s1 s2 : Int) : Option Nat :=
  if s1 > s2 then some team1_id
  else if s2 > s1 then some team2_id
  else none

/-- A nullable id as a bound parameter. -/
def optValue : Option Nat → Value
  | none => Value.null
  | some n => Value.int n

/-- Statement built by `CRUDOperations.update_match_score`
(src/main.py 222-224): one UPDATE carrying both scores, the winner and
the key. -/
def update_match_score (match_id : Nat) (s1 s2 : Int) (winner_id : Option Nat) : Stmt :=
  ⟨"UPDATE MATCHES SET score_team1=%s, score_team2=%s, winner_team_id=%s WHERE match_id=%s",
   [Value.int s1, Value.int s2, optValue winner_id, Value.int match_id]⟩

/-- The repository surface (`CRUDOperations`).  Identifiers of freshly
inserted rows are store-assigned (AUTO_INCREMENT); each create carries
the id the store hands back through `get_last_insert_id`. -/
inductive Op where
  | createUser (id : Nat) (username password_hash role email : Value)
  | updateUser (id : Nat) (kw : List (String × Value))
  | deleteUser (id : Nat)
  | createTeam (id : Nat) (team_name abbreviation country coach founded_date : Value)
  | updateTeam (id : Nat) (kw : List (String × Value))
  | deleteTeam (id : Nat)
  | createPlayer (id : Nat) (nickname team_id real_name nationality role birth_date : Value)
  | updatePlayer (id : Nat) (kw : List (String × Value))
  | deletePlayer (id : Nat)
  | createTournament (id : Nat) (tournament_name location start_date end_date prize_pool tier status : Value)
  | updateTournament (id : Nat) (kw : List (String × Value))
  | deleteTournament (id : Nat)
  | createMatch (id : Nat) (tournament_id team1_id team2_id : Nat) (match_date best_of stage : Value)
  | updateMatchScore (id : Nat) (s1 s2 : Int) (winner_id : Option Nat)
  | deleteMatch (id : Nat)
  deriving DecidableEq, Repr

/-- Store effect of each repository operation together with the write
statements it issues, method by method from `CRUDOperations`
(src/main.py 116-226).  An UPDATE applies its SET clause to every row
matching the key; a DELETE removes every row matching the key; an INSERT
appends.  `deleteTournament` removes only the tournament row (a
schema-level cascade is outside the embedded source).  Read statements
(SELECTs) are not part of the issued-write list. -/
def applyOp (op : Op) (db : DB) : DB × List Stmt :=
  match op with
  | .createUser id username password_hash role email =>
    ({ db with users := db.users ++
        [⟨id, username, password_hash, role, email, Value.null⟩] },
     [⟨"INSERT INTO USERS (username, password_hash, role, email) VALUES (%s,%s,%s,%s)",
       [username, password_hash, role, email]⟩])
  | .updateUser id kw =>
    match update_user id kw with
    | none => (db, [])
    | some s =>
      ({ db with users := db.users.map (fun u =>
          if u.user_id == id then applyUserKw u (filterAllowed usersAllowed kw) else u) },
       [s])
  | .deleteUser id =>
    ({ db with users := db.users.filter (fun u => !(u.user_id == id)) },
     [⟨"DELETE FROM USERS WHERE user_id=%s", [Value.int id]⟩])
  | .createTeam id team_name abbreviation country coach founded_date =>
    ({ db with teams := db.teams ++
        [⟨id, team_name, abbreviation, country, coach, founded_date, Value.bool true⟩] },
     [⟨"INSERT INTO TEAMS (team_name,abbreviation,country,coach,founded_date) VALUES (%s,%s,%s,%s,%s)",
       [team_name, abbreviation, country, coach, founded_date]⟩])
  | .updateTeam id kw =>
    match update_team id kw with
    | none => (db, [])
    | some s =>
      ({ db with teams := db.teams.map (fun t =>
          if t.team_id == id then applyTeamKw t (filterAllowed teamsAllowed kw) else t) },
       [s])
  | .deleteTeam id =>
    ((delete_team db id).1,
     match (delete_team db id).2 with
     | .softDeactivated _ =>
       [⟨"UPDATE TEAMS SET is_active=FALSE WHERE team_id=%s", [Value.int id]⟩]
     | .hardDeleted =>
       [⟨"DELETE FROM TEAMS WHERE team_id=%s", [Value.int id]⟩])
  | .createPlayer id nickname team_id real_name nationality role birth_date =>
    ({ db with players := db.players ++
        [⟨id, nickname, team_id, real_name, nationality, role, birth_date, Value.bool true⟩] },
     [⟨"INSERT INTO PLAYERS (nickname,team_id,real_name,nationality,role,birth_date) VALUES (%s,%s,%s,%s,%s,%s)",
       [nickname, team_id, real_name, nationality, role, birth_date]⟩])
  | .updatePlayer id kw =>
    match update_player id kw with
    | none => (db, [])
    | some s =>
      ({ db with players := db.players.map (fun p =>
          if p.player_id == id then applyPlayerKw p (filterAllowed playersAllowed kw) else p) },
       [s])
  | .deletePlayer id =>
    ({ db with players := db.players.map (fun p =>
        if p.player_id == id then { p with is_active := Value.bool false } else p) },
     [⟨"UPDATE PLAYERS SET is_active=FALSE WHERE player_id=%s", [Value.int id]⟩])
  | .createTournament id tournament_name location start_date end_date prize_pool tier status =>
    ({ db with tournaments := db.tournaments ++
        [⟨id, tournament_name, location, start_date, end_date, prize_pool, tier, status⟩] },
     [⟨"INSERT INTO TOURNAMENTS (tournament_name,location,start_date,end_date,prize_pool,tier,status) VALUES (%s,%s,%s,%s,%s,%s,%s)",
       [tournament_name, location, start_date, end_date, prize_pool, tier, status]⟩])
  | .updateTournament id kw =>
    match update_tournament id kw with
    | none => (db, [])
    | some s =>
      ({ db with tournaments := db.tournaments.map (fun t =>
          if t.tournament_id == id then applyTournamentKw t (filterAllowed tournamentsAllowed kw) else t) },
       [s])
  | .deleteTournament id =>
    ({ db with tournaments := db.tournaments.filter (fun t => !(t.tournament_id == id)) },
     [⟨"DELETE FROM TOURNAMENTS WHERE tournament_id=%s", [Value.int id]⟩])
  | .createMatch id tournament_id team1_id team2_id match_date best_of stage =>
    match create_match tournament_id team1_id team2_id match_date best_of stage with
    | none => (db, [])
    | some s =>
      ({ db with matchesRows := db.matchesRows ++
          [⟨id, tournament_id, team1_id, team2_id, Value.null, Value.null,
            match_date, best_of, stage, none⟩] },
       [s])
  | .updateMatchScore id s1 s2 winner_id =>
    ({ db with matchesRows := db.matchesRows.map (fun m =>
        if m.match_id == id then
          { m with score_team1 := Value.int s1, score_team2 := Value.int s2,
                   winner_team_id := winner_id }
        else m) },
     [update_match_score id s1 s2 winner_id])
  | .deleteMatch id =>
    ({ db with matchesRows := db.matchesRows.filter (fun m => !(m.match_id == id)) },
     [⟨"DELETE FROM MATCHES WHERE match_id=%s", [Value.int id]⟩])

/-- Sequential store effect of a list of repository operations. -/
def applyOps (ops : List Op) (db : DB) : DB :=
  ops.foldl (fun d op => (applyOp op d).1) db

/-- The CLI result-recording flow (src/main.py 534-542): look the match
up, compute the winner from the two scores, and issue one
`update_match_score` call. -/
def recordMatchResult (m : MatchRow) (s1 s2 : Int) : Op :=
  Op.updateMatchScore m.match_id s1 s2 (computeWinner m.team1_id m.team2_id s1 s2)

/-- Substring containment: the semantics of SQL `col LIKE '%term%'` for a
wildcard-wrapped search term without further wildcard characters. -/
def strContains (s pat : String) : Bool :=
  pat == "" || 2 ≤ (s.splitOn pat).length

/-- LIKE applied to a stored value: NULL (and non-text values) never match. -/
def valueLike (v : Value) (pat : String) : Bool :=
  match v with
  | .str s => strContains s pat
  | _ => false

/-- One WHERE fragment of the structured tournament search
(src/main.py 245-251). -/
inductive Cond where
  | termLike (t : String)
  | tierEq (t : String)
  | statusEq (t : String)
  deriving DecidableEq, Repr

/-- SQL text of one fragment, exactly the strings appended to `conds`. The
search payload never appears in the text: it is bound separately. -/
def condText : Cond → String
  | .termLike _ => "(tournament_name LIKE %s OR location LIKE %s)"
  | .tierEq _ => "tier=%s"
  | .statusEq _ => "status=%s"

/-- Python truthiness of an optional filter argument: `if term:` treats
both `None` and the empty string as absent. -/
def present : Option String → Bool
  | none => false
  | some s => !(s == "")

/-- The fragment list built by `search_tournaments` (src/main.py 246-249):
each present filter appends exactly one fragment, in term/tier/status
order; an absent filter appends nothing. -/
def tournamentConds (term tier status : Option String) : List Cond :=
  (if present term then [Cond.termLike (term.getD "")] else []) ++
  (if present tier then [Cond.tierEq (tier.getD "")] else []) ++
  (if present status then [Cond.statusEq (status.getD "")] else [])

/-- The WHERE clause text (src/main.py line 250):
`" AND ".join(conds) if conds else "1=1"`. -/
def tournamentWhere (term tier status : Option String) : String :=
  let conds := tournamentConds term tier status
  if conds.isEmpty then "1=1"
  else String.intercalate " AND " (conds.map condText)

/-- Full statement text of the structured search (src/main.py line 251). -/
def searchTournamentsQuery (term tier status : Option String) : String :=
  "SELECT * FROM TOURNAMENTS WHERE " ++ tournamentWhere term tier status ++
    " ORDER BY start_date DESC"

/-- Row semantics of one fragment. -/
def evalCond (r : TournamentRow) : Cond → Bool
  | .termLike t => valueLike r.tournament_name t || valueLike r.location t
  | .tierEq t => r.tier == Value.str t
  | .statusEq t => r.status == Value.str t

/-- Row set returned by `SearchOperations.search_tournaments`
(src/main.py 245-251): the rows satisfying the conjunction of all built
fragments (the empty conjunction, like the `1=1` fallback, holds of every
row).  The `ORDER BY start_date DESC` presentation order is not part of
the membership claims and is left unmodelled. -/
def search_tournaments (rows : List TournamentRow) (term tier status : Option String) :
    List TournamentRow :=
  rows.filter (fun r => (tournamentConds term tier status).all (evalCond r))

/-- Digit character of `n < 10`, via the core digit table. -/
def natDigits (n : Nat) : List Char :=
  if _h : n < 10 then [Nat.digitChar n]
  else natDigits (n / 10) ++ [Nat.digitChar (n % 10)]
decreasing_by exact Nat.div_lt_self (by omega) (by omega)

/-- Decimal rendering padded with leading zeros to width `w`, the
behavior of `%0{w}d` in CPython's `isoformat`. -/
def padDigits (w n : Nat) : List Char :=
  List.replicate (w - (natDigits n).length) '0' ++ natDigits n

/-- ASCII decimal digit test. -/
def isDigitChar (c : Char) : Bool := 48 ≤ c.toNat && c.toNat ≤ 57

/-- Numeric value of a digit string, most significant first, on top of an
accumulator. -/
def digitsValFrom (a : Nat) (cs : List Char) : Nat :=
  cs.foldl (fun acc c => acc * 10 + (c.toNat - 48)) a

/-- Numeric value of a digit string. -/
def digitsVal (cs : List Char) : Nat := digitsValFrom 0 cs

/-- Read a leading run of digits; fails on a non-digit start. -/
def readNat (cs : List Char) : Option (Nat × List Char) :=
  let ds := cs.takeWhile isDigitChar
  if ds.isEmpty then none else some (digitsVal ds, cs.dropWhile isDigitChar)

/-- Characters of the ISO-8601 date rendering `YYYY-MM-DD` produced by
`date.isoformat()`. -/
def isoDateChars (d : Date) : List Char :=
  padDigits 4 d.year ++ ('-' :: (padDigits 2 d.month ++ ('-' :: padDigits 2 d.day)))

/-- Characters of the ISO-8601 date-time rendering `YYYY-MM-DDTHH:MM:SS`
produced by `datetime.isoformat()` on a seconds-precision value. -/
def isoDateTimeChars (dt : DateTime) : List Char :=
  padDigits 4 dt.year ++ ('-' :: (padDigits 2 dt.month ++ ('-' :: (padDigits 2 dt.day ++
    ('T' :: (padDigits 2 dt.hour ++ (':' :: (padDigits 2 dt.minute ++
      (':' :: padDigits 2 dt.second)))))))))

/-- ISO-8601 date string. -/
def isoDate (d : Date) : String := ⟨isoDateChars d⟩

/-- ISO-8601 date-time string. -/
def isoDateTime (dt : DateTime) : String := ⟨isoDateTimeChars dt⟩

/-- Re-parse of an ISO-8601 date, the inverse direction of the
serializer's round-trip contract (`date.fromisoformat`). -/
def parseDateChars (cs : List Char) : Option Date :=
  match readNat cs with
  | some (y, '-' :: r1) =>
    match readNat r1 with
    | some (mo, '-' :: r2) =>
      match readNat r2 with
      | some (d, []) => some ⟨y, mo, d⟩
      | _ => none
    | _ => none
  | _ => none

/-- Re-parse of an ISO-8601 seconds-precision date-time
(`datetime.fromisoformat`). -/
def parseDateTimeChars (cs : List Char) : Option DateTime :=
  match readNat cs with
  | some (y, '-' :: r1) =>
    match readNat r1 with
    | some (mo, '-' :: r2) =>
      match readNat r2 with
      | some (d, 'T' :: r3) =>
        match readNat r3 with
        | some (h, ':' :: r4) =>
          match readNat r4 with
          | some (mi, ':' :: r5) =>
            match readNat r5 with
            | some (s, []) => some ⟨y, mo, d, h, mi, s⟩
            | _ => none
          | _ => none
        | _ => none
      | _ => none
    | _ => none
  | _ => none

/-- String-level date re-parse. -/
def parseIsoDate (s : String) : Option Date := parseDateChars s.data

/-- String-level date-time re-parse. -/
def parseIsoDateTime (s : String) : Option DateTime := parseDateTimeChars s.data

/-- The CLI exporter's value serializer `DataExporter._serialize`
(src/main.py 277-281), restricted to the modelled value universe: a
`datetime` maps to its isoformat string; every other modelled value
passes through unchanged (a plain `date` is not a Python `datetime`, so
the first branch does not fire for it; the `Decimal` and `bytes`
branches concern values outside `Value`). -/
def DataExporter.serialize (v : Value) : Value :=
  match v with
  | .vdatetime dt => .str (isoDateTime dt)
  | w => w

/-- The GUI serializer `CS2EsportApp.serialize_value`
(main_gui.py 1736-1754): `isinstance(value, (datetime, date))` sends both
date-times and plain dates to their isoformat strings; other modelled
values pass through. -/
def serialize_value (v : Value) : Value :=
  match v with
  | .vdatetime dt => .str (isoDateTime dt)
  | .vdate d => .str (isoDate d)
  | w => w

/-- The five import/export target tables. -/
inductive Table where
  | USERS | TEAMS | PLAYERS | TOURNAMENTS | MATCHES
  deriving DecidableEq, Repr

/-- Table name as interpolated into statements. -/
def tableName : Table → String
  | .USERS => "USERS"
  | .TEAMS => "TEAMS"
  | .PLAYERS => "PLAYERS"
  | .TOURNAMENTS => "TOURNAMENTS"
  | .MATCHES => "MATCHES"

/-- Insertable-column whitelist of `DataImporter._import`
(src/main.py 328-334). -/
def importCols : Table → List String
  | .USERS => ["username", "password_hash", "role", "email"]
  | .TEAMS => ["team_name", "abbreviation", "country", "coach", "founded_date", "is_active"]
  | .PLAYERS => ["team_id", "nickname", "real_name", "nationality", "role", "birth_date", "is_active"]
  | .TOURNAMENTS => ["tournament_name", "location", "start_date", "end_date", "prize_pool", "tier", "status"]
  | .MATCHES => ["tournament_id", "team1_id", "team2_id", "score_team1", "score_team2", "match_date", "best_of", "stage", "winner_team_id"]

/-- A parsed interchange row: column name / value pairs with distinct keys
(Python dicts), order-preserving. -/
abbrev Row := List (String × Value)

/-- Dict lookup `row[c]` guarded by `c in row`. -/
def rowGet (row : Row) (c : String) : Option Value :=
  (row.find? (fun p => p.1 == c)).map Prod.snd

/-- Normalization `None if v in ('', 'None') else v` of the import loop
(src/main.py line 343). -/
def normalizeVal (v : Value) : Value :=
  if v == Value.str "" || v == Value.str "None" then Value.null else v

/-- The `(vcols, vals)` built for one row by the loop at
src/main.py 339-344: project the row onto the table's whitelist in
whitelist order and normalize each kept value. -/
def projectRow (t : Table) (row : Row) : List (String × Value) :=
  (importCols t).filterMap (fun c => (rowGet row c).map (fun v => (c, normalizeVal v)))

/-- The importer's INSERT text (src/main.py line 346):
`f"INSERT INTO {t} ({','.join(vcols)}) VALUES ({','.join(['%s']*len(vcols))})"`. -/
def insertQuery (tname : String) (cols : List String) : String :=
  "INSERT INTO " ++ tname ++ " (" ++ String.intercalate "," cols ++ ") VALUES (" ++
    String.intercalate "," (cols.map (fun _ => "%s")) ++ ")"

/-- Statement the importer issues for one row, or `none` when the
projection is empty and the row is skipped without a statement
(src/main.py line 345). -/
def importInsertStmt (t : Table) (row : Row) : Option Stmt :=
  let cv := projectRow t row
  if cv.isEmpty then none
  else some ⟨insertQuery (tableName t) (cv.map Prod.fst), cv.map Prod.snd⟩

/-- The batch loop of `DataImporter._import` (src/main.py 326-351) with
the store's acceptance of each statement modelled by the oracle `exec0`
(`Database.execute` returns True on commit, False after rollback).  The
result is the reported pair: the imported counter, incremented exactly
when a row's INSERT was issued and accepted, and the row total
`len(data)`. -/
def importBatch (exec0 : Stmt → Bool) (t : Table) (data : List Row) : Nat × Nat :=
  (data.foldl (fun imported row =>
     match importInsertStmt t row with
     | none => imported
     | some s => if exec0 s then imported + 1 else imported) 0,
   data.length)

/-- The SELECT test of the GUI's `Database.execute`
(main_gui.py line 173): `query.strip().upper().startswith('SELECT')`,
modelled at the character level (leading whitespace dropped, case folded,
first six characters compared). -/
def isSelectText (s : String) : Bool :=
  match (s.data.dropWhile Char.isWhitespace).map Char.toUpper with
  | 'S' :: 'E' :: 'L' :: 'E' :: 'C' :: 'T' :: _ => true
  | _ => false

/-- The GUI's `Database.execute` (main_gui.py 148-184).  `ok` is whether
the store accepts the statement, `fetched` what a successful SELECT
fetches.  A SELECT returns its rows; a successful write commits and
returns None; a failed statement rolls back and returns None — so for
writes the caller cannot tell success from failure. -/
def guiExecute (ok : Bool) (fetched : List Row) (q : Stmt) : Option (List Row) :=
  if ok then (if isSelectText q.text then some fetched else none) else none

/-- The GUI import's INSERT text (main_gui.py 1679-1682), with `', '`
separators. -/
def guiInsertQuery (tname : String) (cols : List String) : String :=
  "INSERT INTO " ++ tname ++ " (" ++ String.intercalate ", " cols ++ ") VALUES (" ++
    String.intercalate ", " (cols.map (fun _ => "%s")) ++ ")"

/-- Whether a row still has data after `row.pop(pk, None)`, the `if row:`
guard of the GUI import loop. -/
def guiRowKept (pk : String) (row : Row) : Bool :=
  !(row.filter (fun p => !(p.1 == pk))).isEmpty

/-- The INSERT the GUI import builds for a kept row. -/
def guiRowStmt (pk tname : String) (row : Row) : Stmt :=
  let r := row.filter (fun p => !(p.1 == pk))
  ⟨guiInsertQuery tname (r.map Prod.fst), r.map Prod.snd⟩

/-- The loop of `CS2EsportApp.import_json` (main_gui.py 1668-1687): drop
the primary key, and for each non-empty remainder build the INSERT, call
`execute` — whose `None` return is discarded — and increment `count`
unconditionally.  First component: the count the success dialog reports.
Second component: instrumentation counting the rows the store actually
accepted under the oracle (the Python keeps no such counter). -/
def gui_import_json (exec0 : Stmt → Bool) (pk tname : String) (data : List Row) : Nat × Nat :=
  data.foldl (fun acc row =>
    if guiRowKept pk row then
      (acc.1 + 1, if exec0 (guiRowStmt pk tname row) then acc.2 + 1 else acc.2)
    else acc) (0, 0)

/-! Supporting lemmas. -/

theorem mem_filterAllowed_keys {allowed : List String} {kw : List (String × Value)}
    {c : String} (h : c ∈ (filterAllowed allowed kw).map Prod.fst) : c ∈ allowed := by
  rcases List.mem_map.mp h with ⟨p, hp, rfl⟩
  have := (List.mem_filter.mp hp).2
  simpa [List.contains_iff_exists_mem_beq] using this

theorem filterAllowed_append_not_allowed {allowed : List String}
    (kw : List (String × Value)) {k : String} (v : Value) (hk : k ∉ allowed) :
    filterAllowed allowed (kw ++ [(k, v)]) = filterAllowed allowed kw := by
  have hc : allowed.contains k = false := by
    rcases hcc : allowed.contains k with _ | _
    · rfl
    · exact absurd (by simpa [List.contains_iff_exists_mem_beq] using hcc) hk
  simp [filterAllowed, List.filter_append, hc]
  exact hk

theorem buildUpdate_spec {table pkCol : String} {allowed : List String}
    {pk : Nat} {kw : List (String × Value)} {s : Stmt}
    (h : buildUpdate table pkCol allowed pk kw = some s) :
    s.text = updateQuery table ((filterAllowed allowed kw).map Prod.fst) pkCol ∧
    s.params = (filterAllowed allowed kw).map Prod.snd ++ [Value.int pk] := by
  unfold buildUpdate at h
  by_cases he : (filterAllowed allowed kw).isEmpty
  · simp [he] at h
  · rw [if_neg he] at h
    cases h
    exact ⟨rfl, rfl⟩

theorem buildUpdate_drop {table pkCol : String} {allowed : List String}
    (pk : Nat) (kw : List (String × Value)) {k : String} (v : Value) (hk : k ∉ allowed) :
    buildUpdate table pkCol allowed pk (kw ++ [(k, v)]) = buildUpdate table pkCol allowed pk kw := by
  unfold buildUpdate
  rw [filterAllowed_append_not_allowed kw v hk]

theorem buildUpdate_empty {table pkCol : String} {allowed : List String}
    (pk : Nat) {kw : List (String × Value)} (h : filterAllowed allowed kw = []) :
    buildUpdate table pkCol allowed pk kw = none := by
  unfold buildUpdate
  rw [h]
  rfl

/-! Claim C1: whitelist-driven UPDATE building. -/

/-- C1: for every entity (USERS, TEAMS, PLAYERS, TOURNAMENTS) and every
caller-supplied partial field map, the issued UPDATE statement is built
only from the columns of that entity's fixed allowed set: its text is the
fixed skeleton over exactly the filtered column names (so every column
name in it lies in the allowed set), its bound parameters are the
filtered values with the primary-key value appended last, and values
never enter the text.  Keys outside the set are silently dropped:
appending an unknown key to the field map leaves the operation's result
unchanged. -/
theorem C1_update_whitelist :
    (∀ (uid : Nat) (kw : List (String × Value)) (s : Stmt), update_user uid kw = some s →
       s.text = updateQuery "USERS" ((filterAllowed usersAllowed kw).map Prod.fst) "user_id" ∧
       (∀ c ∈ (filterAllowed usersAllowed kw).map Prod.fst, c ∈ usersAllowed) ∧
       s.params = (filterAllowed usersAllowed kw).map Prod.snd ++ [Value.int uid]) ∧
    (∀ (tid : Nat) (kw : List (String × Value)) (s : Stmt), update_team tid kw = some s →
       s.text = updateQuery "TEAMS" ((filterAllowed teamsAllowed kw).map Prod.fst) "team_id" ∧
       (∀ c ∈ (filterAllowed teamsAllowed kw).map Prod.fst, c ∈ teamsAllowed) ∧
       s.params = (filterAllowed teamsAllowed kw).map Prod.snd ++ [Value.int tid]) ∧
    (∀ (pid : Nat) (kw : List (String × Value)) (s : Stmt), update_player pid kw = some s →
       s.text = updateQuery "PLAYERS" ((filterAllowed playersAllowed kw).map Prod.fst) "player_id" ∧
       (∀ c ∈ (filterAllowed playersAllowed kw).map Prod.fst, c ∈ playersAllowed) ∧
       s.params = (filterAllowed playersAllowed kw).map Prod.snd ++ [Value.int pid]) ∧
    (∀ (tid : Nat) (kw : List (String × Value)) (s : Stmt), update_tournament tid kw = some s →
       s.text = updateQuery "TOURNAMENTS" ((filterAllowed tournamentsAllowed kw).map Prod.fst) "tournament_id" ∧
       (∀ c ∈ (filterAllowed tournamentsAllowed kw).map Prod.fst, c ∈ tournamentsAllowed) ∧
       s.params = (filterAllowed tournamentsAllowed kw).map Prod.snd ++ [Value.int tid]) ∧
    (∀ (uid : Nat) (kw : List (String × Value)) (k : String) (v : Value), k ∉ usersAllowed →
       update_user uid (kw ++ [(k, v)]) = update_user uid kw) ∧
    (∀ (tid : Nat) (kw : List (String × Value)) (k : String) (v : Value), k ∉ teamsAllowed →
       update_team tid (kw ++ [(k, v)]) = update_team tid kw) ∧
    (∀ (pid : Nat) (kw : List (String × Value)) (k : String) (v : Value), k ∉ playersAllowed →
       update_player pid (kw ++ [(k, v)]) = update_player pid kw) ∧
    (∀ (tid : Nat) (kw : List (String × Value)) (k : String) (v : Value), k ∉ tournamentsAllowed →
       update_tournament tid (kw ++ [(k, v)]) = update_tournament tid kw) := by
  refine ⟨?_, ?_, ?_, ?_, ?_, ?_, ?_, ?_⟩
  · intro uid kw s h
    exact ⟨(buildUpdate_spec h).1, fun c hc => mem_filterAllowed_keys hc, (buildUpdate_spec h).2⟩
  · intro tid kw s h
    exact ⟨(buildUpdate_spec h).1, fun c hc => mem_filterAllowed_keys hc, (buildUpdate_spec h).2⟩
  · intro pid kw s h
    exact ⟨(buildUpdate_spec h).1, fun c hc => mem_filterAllowed_keys hc, (buildUpdate_spec h).2⟩
  · intro tid kw s h
    exact ⟨(buildUpdate_spec h).1, fun c hc => mem_filterAllowed_keys hc, (buildUpdate_spec h).2⟩
  · intro uid kw k v hk
    exact buildUpdate_drop uid kw v hk
  · intro tid kw k v hk
    exact buildUpdate_drop tid kw v hk
  · intro pid kw k v hk
    exact buildUpdate_drop pid kw v hk
  · intro tid kw k v hk
    exact buildUpdate_drop tid kw v hk

/-- Witness for C1 at a concrete input: a map holding the allowed key
`username` and the unknown key `bogus` yields the one-column statement
with parameters `[value, key]`, the unknown key dropped. -/
theorem C1_update_whitelist_witness :
    (Stmt.mk (updateQuery "USERS" ["username"] "user_id") [Value.str "a", Value.int 3]).params =
      (filterAllowed usersAllowed
        [("username", Value.str "a"), ("bogus", Value.str "b")]).map Prod.snd ++ [Value.int 3] :=
  (C1_update_whitelist.1 3 [("username", Value.str "a"), ("bogus", Value.str "b")]
    (Stmt.mk (updateQuery "USERS" ["username"] "user_id") [Value.str "a", Value.int 3])
    (by rfl)).2.2

/-- An empty store, for concrete instantiations. -/
def emptyDB : DB := ⟨[], [], [], [], []⟩

/-! Claim C9: empty filtered map means no statement and no store change. -/

/-- C9: for every entity, when the caller's field map has empty
intersection with the allowed-column set the update operation reports the
no-updatable-fields outcome (the early `False` return, `none` here, taken
before any statement is built), issues no statement, and leaves the
store unchanged. -/
theorem C9_no_updatable_fields :
    ∀ (db : DB) (id : Nat) (kw : List (String × Value)),
      (filterAllowed usersAllowed kw = [] →
         update_user id kw = none ∧ applyOp (Op.updateUser id kw) db = (db, [])) ∧
      (filterAllowed teamsAllowed kw = [] →
         update_team id kw = none ∧ applyOp (Op.updateTeam id kw) db = (db, [])) ∧
      (filterAllowed playersAllowed kw = [] →
         update_player id kw = none ∧ applyOp (Op.updatePlayer id kw) db = (db, [])) ∧
      (filterAllowed tournamentsAllowed kw = [] →
         update_tournament id kw = none ∧ applyOp (Op.updateTournament id kw) db = (db, [])) := by
  intro db id kw
  refine ⟨fun h => ?_, fun h => ?_, fun h => ?_, fun h => ?_⟩ <;>
    exact ⟨buildUpdate_empty id h, by simp [applyOp, buildUpdate_empty id h, update_user,
      update_team, update_player, update_tournament]⟩

/-- Witness for C9 at a concrete input: a map holding only the unknown
key `bogus` makes `update_user` a statement-free no-op. -/
theorem C9_no_updatable_fields_witness :
    update_user 7 [("bogus", Value.str "x")] = none ∧
      applyOp (Op.updateUser 7 [("bogus", Value.str "x")]) emptyDB = (emptyDB, []) :=
  (C9_no_updatable_fields emptyDB 7 [("bogus", Value.str "x")]).1 (by rfl)

/-! Claim C3: self-match rejection before any statement. -/

/-- C3: creating a match whose two team references coincide is rejected by
the guard before any statement is built — `create_match` reports the
invalid-match failure (`None`) — and the repository operation issues zero
statements and leaves the store untouched. -/
theorem C3_self_match_rejected :
    ∀ (db : DB) (id tournament_id team_id : Nat) (match_date best_of stage : Value),
      create_match tournament_id team_id team_id match_date best_of stage = none ∧
      applyOp (Op.createMatch id tournament_id team_id team_id match_date best_of stage) db
        = (db, []) := by
  intro db id tournament_id team_id match_date best_of stage
  have hc : create_match tournament_id team_id team_id match_date best_of stage = none := by
    simp [create_match]
  exact ⟨hc, by simp [applyOp, hc]⟩

/-! Claim C4: result recording computes the winner and persists in one UPDATE. -/

/-- C4: recording a match result computes the winner reference as team1
exactly when the first score is strictly greater, team2 when the second
is strictly greater, and no winner on a tie; the repository issues
exactly the single UPDATE carrying both scores and the winner, and every
stored row of that match afterwards holds those scores and that winner. -/
theorem C4_record_result :
    ∀ (db : DB) (m : MatchRow) (s1 s2 : Int),
      (applyOp (recordMatchResult m s1 s2) db).2 =
        [update_match_score m.match_id s1 s2 (computeWinner m.team1_id m.team2_id s1 s2)] ∧
      (s1 > s2 → computeWinner m.team1_id m.team2_id s1 s2 = some m.team1_id) ∧
      (s2 > s1 → computeWinner m.team1_id m.team2_id s1 s2 = some m.team2_id) ∧
      (s1 = s2 → computeWinner m.team1_id m.team2_id s1 s2 = none) ∧
      (∀ r ∈ (applyOp (recordMatchResult m s1 s2) db).1.matchesRows,
         r.match_id = m.match_id →
           r.score_team1 = Value.int s1 ∧ r.score_team2 = Value.int s2 ∧
           r.winner_team_id = computeWinner m.team1_id m.team2_id s1 s2) := by
  intro db m s1 s2
  refine ⟨rfl, ?_, ?_, ?_, ?_⟩
  · intro h
    simp [computeWinner, h]
  · intro h
    have h1 : ¬ s1 > s2 := by omega
    simp [computeWinner, h, h1]
  · intro h
    have h1 : ¬ s1 > s2 := by omega
    have h2 : ¬ s2 > s1 := by omega
    simp [computeWinner, h1, h2]
  · intro r hr hid
    simp only [recordMatchResult, applyOp] at hr
    rcases List.mem_map.mp hr with ⟨r0, _hr0, rfl⟩
    by_cases hm : r0.match_id == m.match_id
    · simp [hm]
    · rw [if_neg hm] at hid ⊢
      exact absurd (by simp [hid]) hm

/-- Witness match row for C4. -/
def c4Match : MatchRow :=
  ⟨10, 1, 1, 2, Value.null, Value.null, Value.str "2025-01-15 18:00:00",
   Value.str "BO3", Value.null, none⟩

/-- Witness for C4 at the spec's concrete scores: with scores 16:10 the
winner reference is team1. -/
theorem C4_record_result_witness :
    computeWinner c4Match.team1_id c4Match.team2_id 16 10 = some c4Match.team1_id :=
  (C4_record_result emptyDB c4Match 16 10).2.1 (by decide)

/-! Claim C2: team deletion — soft fallback versus hard removal. -/

theorem find?_teamById_map_soft (l : List TeamRow) (id : Nat) (t0 : TeamRow)
    (h : l.find? (fun t => t.team_id == id) = some t0) :
    (l.map (fun t =>
        if t.team_id == id then { t with is_active := Value.bool false } else t)).find?
      (fun t => t.team_id == id) = some { t0 with is_active := Value.bool false } := by
  induction l with
  | nil => simp at h
  | cons a l ih =>
    rw [List.find?_cons] at h
    cases ha : a.team_id == id with
    | true =>
      rw [ha] at h
      have h' : a = t0 := by simpa using h
      subst h'
      have ha' : a.team_id = id := by simpa using ha
      simp [List.find?_cons, ha, ha']
    | false =>
      rw [ha] at h
      simp only [List.map_cons, ha, Bool.false_eq_true, if_false]
      rw [List.find?_cons]
      simp only [ha]
      exact ih h

theorem find?_teamById_filter_ne (l : List TeamRow) (id : Nat) :
    (l.filter (fun t => !(t.team_id == id))).find? (fun t => t.team_id == id) = none := by
  rw [List.find?_eq_none]
  intro x hx
  have := (List.mem_filter.mp hx).2
  simp at this
  simp [this]

/-- C2 (amended): the dependent check of `delete_team` counts every
player row referencing the team — active or not.  If at least one such
row exists the deletion is a soft deactivation: the outcome reports the
number of referencing rows, and the team stays retrievable by id with
its active flag false.  Only when no player row at all references the
team is the row removed. -/
theorem C2_team_delete_amended :
    ∀ (db : DB) (id : Nat) (t0 : TeamRow), get_team_by_id db id = some t0 →
      (db.players.filter (fun p => p.team_id == Value.int id) ≠ [] →
         (delete_team db id).2 = DeleteTeamResult.softDeactivated
             (db.players.filter (fun p => p.team_id == Value.int id)).length ∧
         get_team_by_id (delete_team db id).1 id =
           some { t0 with is_active := Value.bool false }) ∧
      (db.players.filter (fun p => p.team_id == Value.int id) = [] →
         (delete_team db id).2 = DeleteTeamResult.hardDeleted ∧
         get_team_by_id (delete_team db id).1 id = none) := by
  intro db id t0 h0
  constructor
  · intro hne
    have hcond : ¬ ((db.players.filter (fun p => p.team_id == Value.int id)).isEmpty = true) := by
      rw [List.isEmpty_iff]
      exact hne
    have hfind := find?_teamById_map_soft db.teams id t0 h0
    constructor
    · simp only [delete_team]
      rw [if_neg hcond]
    · simp only [delete_team]
      rw [if_neg hcond]
      exact hfind
  · intro heq
    have hcond : (db.players.filter (fun p => p.team_id == Value.int id)).isEmpty = true := by
      simp [heq]
    constructor
    · simp only [delete_team]
      rw [if_pos hcond]
    · simp only [delete_team]
      rw [if_pos hcond]
      exact find?_teamById_filter_ne db.teams id

/-- Store of the C2 counterexample: team 1 and a single *inactive* player
referencing it. -/
def c2DB : DB :=
  ⟨[],
   [⟨1, Value.str "T", Value.null, Value.null, Value.null, Value.null, Value.bool true⟩],
   [⟨5, Value.str "p", Value.int 1, Value.null, Value.null, Value.null, Value.null,
     Value.bool false⟩],
   [], []⟩

/-- Counterexample to C2 as stated: team 1 of `c2DB` is referenced by
zero *active* players, so the claim requires the row to be removed
entirely; the code instead counts the inactive player as a dependent,
reports one dependent, soft-deactivates, and the row remains
retrievable. -/
theorem C2_team_delete_counterexample :
    (c2DB.players.filter
        (fun p => p.team_id == Value.int 1 && p.is_active == Value.bool true)).length = 0 ∧
    (delete_team c2DB 1).2 = DeleteTeamResult.softDeactivated 1 ∧
    (get_team_by_id (delete_team c2DB 1).1 1).isSome = true := by
  refine ⟨rfl, rfl, rfl⟩

/-- Store of the C2 witness: team 2 with one active player referencing it. -/
def c2WitnessDB : DB :=
  ⟨[],
   [⟨2, Value.str "U", Value.null, Value.null, Value.null, Value.null, Value.bool true⟩],
   [⟨6, Value.str "q", Value.int 2, Value.null, Value.null, Value.null, Value.null,
     Value.bool true⟩],
   [], []⟩

/-- Witness for the amended C2 at a concrete input: with one referencing
player the deletion reports one dependent and falls back to soft
deactivation. -/
theorem C2_team_delete_amended_witness :
    (delete_team c2WitnessDB 2).2 = DeleteTeamResult.softDeactivated
        (c2WitnessDB.players.filter (fun p => p.team_id == Value.int 2)).length ∧
      get_team_by_id (delete_team c2WitnessDB 2).1 2 =
        some { (⟨2, Value.str "U", Value.null, Value.null, Value.null, Value.null,
                 Value.bool true⟩ : TeamRow) with is_active := Value.bool false } :=
  (C2_team_delete_amended c2WitnessDB 2
      ⟨2, Value.str "U", Value.null, Value.null, Value.null, Value.null, Value.bool true⟩
      (by rfl)).1 (by decide)

/-! Claim C8: player deletion is always soft; player rows survive every
repository operation. -/

theorem PlayerRow.setField_keeps_id (p : PlayerRow) (k : String) (v : Value) :
    (p.setField k v).player_id = p.player_id := by
  unfold PlayerRow.setField
  split <;> rfl

theorem applyPlayerKw_keeps_id (updates : List (String × Value)) (p : PlayerRow) :
    (applyPlayerKw p updates).player_id = p.player_id := by
  induction updates generalizing p with
  | nil => rfl
  | cons u rest ih =>
    show (applyPlayerKw (p.setField u.1 u.2) rest).player_id = p.player_id
    rw [ih, PlayerRow.setField_keeps_id]

theorem applyOp_keeps_player_ids (op : Op) (db : DB) (pid : Nat)
    (h : pid ∈ db.players.map (fun p => p.player_id)) :
    pid ∈ (applyOp op db).1.players.map (fun p => p.player_id) := by
  cases op with
  | createUser id username password_hash role email => exact h
  | updateUser id kw =>
    cases hu : update_user id kw with
    | none => simpa [applyOp, hu] using h
    | some s => simpa [applyOp, hu] using h
  | deleteUser id => exact h
  | createTeam id team_name abbreviation country coach founded_date => exact h
  | updateTeam id kw =>
    cases hu : update_team id kw with
    | none => simpa [applyOp, hu] using h
    | some s => simpa [applyOp, hu] using h
  | deleteTeam id =>
    have : (applyOp (Op.deleteTeam id) db).1.players = db.players := by
      simp only [applyOp, delete_team]
      by_cases hc : (db.players.filter (fun p => p.team_id == Value.int id)).isEmpty = true
      · rw [if_pos hc]
      · rw [if_neg hc]
    rw [this]
    exact h
  | createPlayer id nickname team_id real_name nationality role birth_date =>
    simp only [applyOp, List.map_append]
    exact List.mem_append_left _ h
  | updatePlayer id kw =>
    cases hu : update_player id kw with
    | none => simpa [applyOp, hu] using h
    | some s =>
      simp only [applyOp, hu, List.map_map]
      have hcg : db.players.map ((fun p => p.player_id) ∘ (fun p =>
          if p.player_id == id then applyPlayerKw p (filterAllowed playersAllowed kw) else p)) =
          db.players.map (fun p => p.player_id) := by
        apply List.map_congr_left
        intro a _
        by_cases hp : a.player_id == id
        · simp only [Function.comp, if_pos hp]
          exact applyPlayerKw_keeps_id _ _
        · simp only [Function.comp, if_neg hp]
      rw [hcg]
      exact h
  | deletePlayer id =>
    simp only [applyOp, List.map_map]
    have hcg : db.players.map ((fun p => p.player_id) ∘ (fun p =>
        if p.player_id == id then { p with is_active := Value.bool false } else p)) =
        db.players.map (fun p => p.player_id) := by
      apply List.map_congr_left
      intro a _
      by_cases hp : a.player_id == id
      · simp only [Function.comp, if_pos hp]
      · simp only [Function.comp, if_neg hp]
    rw [hcg]
    exact h
  | createTournament id tournament_name location start_date end_date prize_pool tier status =>
    exact h
  | updateTournament id kw =>
    cases hu : update_tournament id kw with
    | none => simpa [applyOp, hu] using h
    | some s => simpa [applyOp, hu] using h
  | deleteTournament id => exact h
  | createMatch id tournament_id team1_id team2_id match_date best_of stage =>
    cases hm : create_match tournament_id team1_id team2_id match_date best_of stage with
    | none => simpa [applyOp, hm] using h
    | some s => simpa [applyOp, hm] using h
  | updateMatchScore id s1 s2 winner_id => exact h
  | deleteMatch id => exact h

theorem applyOps_keeps_player_ids (ops : List Op) (db : DB) (pid : Nat)
    (h : pid ∈ db.players.map (fun p => p.player_id)) :
    pid ∈ (applyOps ops db).players.map (fun p => p.player_id) := by
  induction ops generalizing db with
  | nil => exact h
  | cons op rest ih => exact ih _ (applyOp_keeps_player_ids op db pid h)

/-- C8: deleting a player issues only the soft-deactivation UPDATE — the
store keeps every player row, with the matching rows' active flag set
false — and no repository operation sequence ever removes a player row:
an id present in the players table is still present after any sequence
of repository operations. -/
theorem C8_player_soft_delete :
    (∀ (db : DB) (id : Nat),
       (applyOp (Op.deletePlayer id) db).1.players =
         db.players.map (fun p =>
           if p.player_id == id then { p with is_active := Value.bool false } else p) ∧
       (applyOp (Op.deletePlayer id) db).2 =
         [⟨"UPDATE PLAYERS SET is_active=FALSE WHERE player_id=%s", [Value.int id]⟩]) ∧
    (∀ (ops : List Op) (db : DB) (pid : Nat),
       pid ∈ db.players.map (fun p => p.player_id) →
       pid ∈ (applyOps ops db).players.map (fun p => p.player_id)) :=
  ⟨fun _db _id => ⟨rfl, rfl⟩, applyOps_keeps_player_ids⟩

/-- Witness store for C8: a single player with id 5. -/
def c8DB : DB :=
  ⟨[], [],
   [⟨5, Value.str "w", Value.null, Value.null, Value.null, Value.null, Value.null,
     Value.bool true⟩],
   [], []⟩

/-- Witness for C8 at a concrete input: after deleting player 5 and then
running two more destructive operations, player 5's row id is still in
the store. -/
theorem C8_player_soft_delete_witness :
    5 ∈ (applyOps [Op.deletePlayer 5, Op.deleteUser 1, Op.deleteTeam 9] c8DB).players.map
        (fun p => p.player_id) :=
  C8_player_soft_delete.2 [Op.deletePlayer 5, Op.deleteUser 1, Op.deleteTeam 9] c8DB 5
    (by decide)

/-! Claim C5: per-row independence of the import batch. -/

/-- Whether one row of an import batch ends up counted: its projection is
non-empty (an INSERT was issued) and the store accepted the INSERT. -/
def importRowOk (exec0 : Stmt → Bool) (t : Table) (row : Row) : Bool :=
  match importInsertStmt t row with
  | none => false
  | some s => exec0 s

theorem foldl_import_count (exec0 : Stmt → Bool) (t : Table) (data : List Row) (k : Nat) :
    data.foldl (fun imported row =>
      match importInsertStmt t row with
      | none => imported
      | some s => if exec0 s then imported + 1 else imported) k =
    k + data.countP (importRowOk exec0 t) := by
  induction data generalizing k with
  | nil => simp
  | cons r rest ih =>
    simp only [List.foldl_cons, List.countP_cons]
    rw [ih]
    have hr : importRowOk exec0 t r = match importInsertStmt t r with
      | none => false
      | some s => exec0 s := rfl
    cases hs : importInsertStmt t r with
    | none => simp [hr, hs]
    | some s =>
      cases he : exec0 s
      · simp [hr, hs, he]
      · simp [hr, hs, he]
        rw [Nat.add_assoc, Nat.add_comm 1]

/-- The ten-row demonstration batch: PLAYERS rows carrying one nickname each. -/
def demoRows : List Row :=
  [[("nickname", Value.str "p1")], [("nickname", Value.str "p2")],
   [("nickname", Value.str "p3")], [("nickname", Value.str "p4")],
   [("nickname", Value.str "p5")], [("nickname", Value.str "p6")],
   [("nickname", Value.str "p7")], [("nickname", Value.str "p8")],
   [("nickname", Value.str "p9")], [("nickname", Value.str "p10")]]

/-- A store that rejects (e.g. by referential constraint) the inserts of
rows p3, p6 and p9 and accepts every other statement. -/
def demoOracle : Stmt → Bool := fun s =>
  !(s.params.contains (Value.str "p3") || s.params.contains (Value.str "p6") ||
    s.params.contains (Value.str "p9"))

/-- C5: every import row is handled independently.  The reported pair is
exactly (number of rows whose issued INSERT the store accepted, number of
rows in the batch) for every store behavior; the imported count of a
concatenated batch is the sum of the parts, so a failing row never
aborts the remainder; and in particular a batch of 10 rows of which 3
fail reports (7, 10). -/
theorem C5_import_partial_failure :
    (∀ (exec0 : Stmt → Bool) (t : Table) (data : List Row),
       importBatch exec0 t data = (data.countP (importRowOk exec0 t), data.length)) ∧
    (∀ (exec0 : Stmt → Bool) (t : Table) (pre post : List Row),
       (importBatch exec0 t (pre ++ post)).1 =
         (importBatch exec0 t pre).1 + (importBatch exec0 t post).1) ∧
    importBatch demoOracle Table.PLAYERS demoRows = (7, 10) := by
  have hmain : ∀ (exec0 : Stmt → Bool) (t : Table) (data : List Row),
      importBatch exec0 t data = (data.countP (importRowOk exec0 t), data.length) := by
    intro exec0 t data
    unfold importBatch
    rw [foldl_import_count exec0 t data 0, Nat.zero_add]
  refine ⟨hmain, ?_, ?_⟩
  · intro exec0 t pre post
    rw [hmain, hmain, hmain]
    simp [List.countP_append]
  · rfl

/-! Claim C6: structured tournament search. -/

/-- Counterexample to C6 as stated: with all three filters absent the
builder does not emit an unconditioned statement — it inserts the
tautology placeholder `1=1` as the WHERE condition
(`" AND ".join(conds) if conds else "1=1"`, src/main.py line 250). -/
theorem C6_structured_search_counterexample :
    searchTournamentsQuery none none none =
      "SELECT * FROM TOURNAMENTS WHERE 1=1 ORDER BY start_date DESC" := by rfl

/-- C6 (amended): an absent filter contributes no clause of its own and a
present filter contributes exactly one, combined conjunctively; with all
three filters absent the builder falls back to the tautological
condition `1=1` instead of dropping the WHERE clause, so the query still
returns the full unfiltered row set; and a tier-only search returns
exactly the rows matching that tier, regardless of other fields. -/
theorem C6_structured_search_amended :
    ∀ (rows : List TournamentRow) (tierStr : String) (term tier status : Option String),
      search_tournaments rows none none none = rows ∧
      tournamentWhere none none none = "1=1" ∧
      (¬ tierStr = "" → search_tournaments rows none (some tierStr) none =
         rows.filter (fun r => r.tier == Value.str tierStr)) ∧
      (tournamentConds term tier status).length =
        (if present term then 1 else 0) + (if present tier then 1 else 0) +
          (if present status then 1 else 0) := by
  intro rows tierStr term tier status
  refine ⟨?_, rfl, ?_, ?_⟩
  · simp [search_tournaments, tournamentConds, present]
  · intro ht
    have hb : (tierStr == "") = false := by
      simpa using ht
    have hconds : tournamentConds none (some tierStr) none = [Cond.tierEq tierStr] := by
      simp [tournamentConds, present, hb]
    simp [search_tournaments, hconds, evalCond]
  · cases hpt : present term <;> cases hpi : present tier <;> cases hps : present status <;>
      simp [tournamentConds, hpt, hpi, hps]

/-- Witness for the amended C6 at a concrete input: two rows of different
tiers; an A-Tier-only search keeps exactly the A-Tier row. -/
theorem C6_structured_search_amended_witness :
    search_tournaments
        [⟨1, Value.str "Major", Value.null, Value.null, Value.null, Value.null,
          Value.str "S-Tier", Value.str "Upcoming"⟩,
         ⟨2, Value.str "Open", Value.null, Value.null, Value.null, Value.null,
          Value.str "A-Tier", Value.str "Ongoing"⟩]
        none (some "A-Tier") none =
      List.filter (fun r => r.tier == Value.str "A-Tier")
        [⟨1, Value.str "Major", Value.null, Value.null, Value.null, Value.null,
          Value.str "S-Tier", Value.str "Upcoming"⟩,
         ⟨2, Value.str "Open", Value.null, Value.null, Value.null, Value.null,
          Value.str "A-Tier", Value.str "Ongoing"⟩] :=
  ((C6_structured_search_amended
      [⟨1, Value.str "Major", Value.null, Value.null, Value.null, Value.null,
        Value.str "S-Tier", Value.str "Upcoming"⟩,
       ⟨2, Value.str "Open", Value.null, Value.null, Value.null, Value.null,
        Value.str "A-Tier", Value.str "Ongoing"⟩]
      "A-Tier" none none none).2.2.1 (by decide))

/-! Claim C7: temporal serialization round-trips. -/

theorem natDigits_ne_nil (n : Nat) : natDigits n ≠ [] := by
  unfold natDigits
  split
  · simp
  · simp

theorem digitChar_isDigit (m : Nat) (h : m < 10) : isDigitChar (Nat.digitChar m) = true := by
  interval_cases m <;> rfl

theorem digitChar_val (m : Nat) (h : m < 10) : (Nat.digitChar m).toNat - 48 = m := by
  interval_cases m <;> rfl

theorem natDigits_all_digits (n : Nat) : ∀ c ∈ natDigits n, isDigitChar c = true := by
  induction n using Nat.strong_induction_on with
  | _ n ih =>
    unfold natDigits
    split
    · rename_i h
      intro c hc
      simp at hc
      subst hc
      exact digitChar_isDigit n h
    · rename_i h
      intro c hc
      rcases List.mem_append.mp hc with h1 | h2
      · exact ih (n / 10) (Nat.div_lt_self (by omega) (by omega)) c h1
      · simp at h2
        subst h2
        exact digitChar_isDigit (n % 10) (Nat.mod_lt _ (by omega))

theorem digitsValFrom_append (a : Nat) (xs ys : List Char) :
    digitsValFrom a (xs ++ ys) = digitsValFrom (digitsValFrom a xs) ys := by
  simp [digitsValFrom, List.foldl_append]

theorem digitsValFrom_natDigits (n : Nat) :
    ∀ a, digitsValFrom a (natDigits n) = a * 10 ^ (natDigits n).length + n := by
  induction n using Nat.strong_induction_on with
  | _ n ih =>
    intro a
    unfold natDigits
    split
    · rename_i h
      show digitsValFrom a [Nat.digitChar n] = a * 10 ^ ([Nat.digitChar n]).length + n
      simp [digitsValFrom, digitChar_val n h]
    · rename_i h
      have hlt : n / 10 < n := Nat.div_lt_self (by omega) (by omega)
      rw [digitsValFrom_append, ih (n / 10) hlt a]
      have hd : digitsValFrom (a * 10 ^ (natDigits (n / 10)).length + n / 10)
          [Nat.digitChar (n % 10)] =
          (a * 10 ^ (natDigits (n / 10)).length + n / 10) * 10 + n % 10 := by
        simp [digitsValFrom, digitChar_val (n % 10) (Nat.mod_lt _ (by omega))]
      rw [hd]
      have hl : (natDigits (n / 10) ++ [Nat.digitChar (n % 10)]).length =
          (natDigits (n / 10)).length + 1 := by simp
      rw [hl, pow_succ]
      have hm : 10 * (n / 10) + n % 10 = n := Nat.div_add_mod n 10
      have hr : (a * 10 ^ (natDigits (n / 10)).length + n / 10) * 10 + n % 10 =
          a * (10 ^ (natDigits (n / 10)).length * 10) + (10 * (n / 10) + n % 10) := by
        ring
      rw [hr, hm]

theorem digitsValFrom_zeros (k : Nat) : digitsValFrom 0 (List.replicate k '0') = 0 := by
  induction k with
  | zero => rfl
  | succ k ih =>
    have h0 : (0 : Nat) * 10 + (Char.toNat '0' - 48) = 0 := rfl
    simp only [List.replicate_succ, digitsValFrom, List.foldl_cons] at *
    rw [h0]
    exact ih

theorem digitsVal_padDigits (w n : Nat) : digitsVal (padDigits w n) = n := by
  unfold digitsVal padDigits
  rw [digitsValFrom_append, digitsValFrom_zeros, digitsValFrom_natDigits n 0]
  simp

theorem padDigits_all_digits (w n : Nat) : ∀ c ∈ padDigits w n, isDigitChar c = true := by
  intro c hc
  rcases List.mem_append.mp hc with h1 | h2
  · rw [List.eq_of_mem_replicate h1]
    rfl
  · exact natDigits_all_digits n c h2

theorem padDigits_ne_nil (w n : Nat) : padDigits w n ≠ [] := by
  unfold padDigits
  intro h
  exact natDigits_ne_nil n (List.append_eq_nil.mp h).2

theorem takeWhile_append_of_all {α : Type} (p : α → Bool) (xs ys : List α)
    (h : ∀ c ∈ xs, p c = true) : (xs ++ ys).takeWhile p = xs ++ ys.takeWhile p := by
  induction xs with
  | nil => simp
  | cons a l ih =>
    have ha : p a = true := h a (by simp)
    rw [List.cons_append, List.takeWhile_cons, if_pos ha,
      ih (fun c hc => h c (by simp [hc]))]
    simp

theorem dropWhile_append_of_all {α : Type} (p : α → Bool) (xs ys : List α)
    (h : ∀ c ∈ xs, p c = true) : (xs ++ ys).dropWhile p = ys.dropWhile p := by
  induction xs with
  | nil => simp
  | cons a l ih =>
    have ha : p a = true := h a (by simp)
    rw [List.cons_append, List.dropWhile_cons, if_pos ha,
      ih (fun c hc => h c (by simp [hc]))]

theorem readNat_pad_sep (w n : Nat) (sep : Char) (hsep : isDigitChar sep = false)
    (rest : List Char) :
    readNat (padDigits w n ++ sep :: rest) = some (n, sep :: rest) := by
  have hneg : ¬ (isDigitChar sep = true) := by simp [hsep]
  simp only [readNat]
  rw [takeWhile_append_of_all _ _ _ (padDigits_all_digits w n),
    dropWhile_append_of_all _ _ _ (padDigits_all_digits w n),
    List.takeWhile_cons, if_neg hneg, List.dropWhile_cons, if_neg hneg, List.append_nil]
  rw [if_neg (by rw [List.isEmpty_iff]; exact padDigits_ne_nil w n)]
  rw [digitsVal_padDigits]

theorem readNat_pad (w n : Nat) : readNat (padDigits w n) = some (n, []) := by
  have h1 : (padDigits w n).takeWhile isDigitChar = padDigits w n := by
    have := takeWhile_append_of_all isDigitChar (padDigits w n) [] (padDigits_all_digits w n)
    simpa using this
  have h2 : (padDigits w n).dropWhile isDigitChar = [] := by
    have := dropWhile_append_of_all isDigitChar (padDigits w n) [] (padDigits_all_digits w n)
    simpa using this
  simp only [readNat]
  rw [h1, h2, if_neg (by rw [List.isEmpty_iff]; exact padDigits_ne_nil w n)]
  rw [digitsVal_padDigits]

theorem parseDateChars_iso (d : Date) : parseDateChars (isoDateChars d) = some d := by
  unfold isoDateChars parseDateChars
  simp only [readNat_pad_sep 4 d.year '-' rfl, readNat_pad_sep 2 d.month '-' rfl,
    readNat_pad 2 d.day]

theorem parseDateTimeChars_iso (dt : DateTime) :
    parseDateTimeChars (isoDateTimeChars dt) = some dt := by
  unfold isoDateTimeChars parseDateTimeChars
  simp only [readNat_pad_sep 4 dt.year '-' rfl, readNat_pad_sep 2 dt.month '-' rfl,
    readNat_pad_sep 2 dt.day 'T' rfl, readNat_pad_sep 2 dt.hour ':' rfl,
    readNat_pad_sep 2 dt.minute ':' rfl, readNat_pad 2 dt.second]

/-- Counterexample to C7 as stated: the CLI serializer
`DataExporter._serialize` (src/main.py 277-281), one of the claim's two
cited implementations, does not map a plain date to an ISO-8601 date
string.  Its type test `isinstance(v, datetime)` is false for a `date`
object, so the date passes through unchanged instead of becoming the
ISO string. -/
theorem C7_temporal_roundtrip_counterexample :
    DataExporter.serialize (Value.vdate ⟨2025, 1, 15⟩) = Value.vdate ⟨2025, 1, 15⟩ ∧
    ¬ DataExporter.serialize (Value.vdate ⟨2025, 1, 15⟩) =
        Value.str (isoDate ⟨2025, 1, 15⟩) :=
  ⟨rfl, fun h => nomatch h⟩

/-- C7 (amended): both serializers map a date-time to its ISO-8601
date-time string, and re-parsing recovers the date-time exactly at the
stored precision of seconds; the GUI serializer `serialize_value` also
maps a plain date to its ISO-8601 date string with an exact round-trip,
while the CLI serializer `DataExporter._serialize` passes a plain date
through unchanged, because its date-time type test does not fire for
dates. -/
theorem C7_temporal_roundtrip_amended :
    ∀ (dt : DateTime) (d : Date),
      serialize_value (Value.vdatetime dt) = Value.str (isoDateTime dt) ∧
      parseIsoDateTime (isoDateTime dt) = some dt ∧
      serialize_value (Value.vdate d) = Value.str (isoDate d) ∧
      parseIsoDate (isoDate d) = some d ∧
      DataExporter.serialize (Value.vdatetime dt) = Value.str (isoDateTime dt) ∧
      DataExporter.serialize (Value.vdate d) = Value.vdate d :=
  fun dt d => ⟨rfl, parseDateTimeChars_iso dt, rfl, parseDateChars_iso d, rfl, rfl⟩

/-! Claim C10: the GUI import counter ignores statement failure. -/

theorem gui_foldl_count (exec0 : Stmt → Bool) (pk tname : String) (data : List Row)
    (acc : Nat × Nat) :
    data.foldl (fun acc row =>
      if guiRowKept pk row then
        (acc.1 + 1, if exec0 (guiRowStmt pk tname row) then acc.2 + 1 else acc.2)
      else acc) acc =
    (acc.1 + data.countP (guiRowKept pk),
     acc.2 + data.countP (fun row => guiRowKept pk row && exec0 (guiRowStmt pk tname row))) := by
  induction data generalizing acc with
  | nil => simp
  | cons r rest ih =>
    simp only [List.foldl_cons, List.countP_cons]
    rw [ih]
    cases hk : guiRowKept pk r
    · simp [hk]
    · cases he : exec0 (guiRowStmt pk tname r)
      · simp only [hk, he, if_true, Bool.true_and, Bool.false_eq_true, if_false,
          Prod.mk.injEq]
        exact ⟨by rw [Nat.add_assoc, Nat.add_comm 1], by rw [Nat.add_zero]⟩
      · simp only [hk, he, if_true, Bool.true_and, Prod.mk.injEq]
        exact ⟨by rw [Nat.add_assoc, Nat.add_comm 1], by rw [Nat.add_assoc, Nat.add_comm 1]⟩

/-- Two GUI import rows; the second one's INSERT will be rejected. -/
def c10Rows : List Row :=
  [[("player_id", Value.int 1), ("nickname", Value.str "a")],
   [("player_id", Value.int 2), ("nickname", Value.str "bad")]]

/-- A store that rejects any statement carrying the value "bad". -/
def c10Oracle : Stmt → Bool := fun s => !(s.params.contains (Value.str "bad"))

/-- C10: the GUI import's reported count increments for every non-empty
row regardless of whether its INSERT succeeded — it equals the number of
non-empty rows under every store behavior, hence is independent of the
store's acceptance — because the GUI `Database.execute` returns None for
a successful write and for a failed one alike; concretely, a two-row
batch with one rejected INSERT reports 2 while only 1 row was inserted,
so the success report exceeds the rows actually in the store. -/
theorem C10_gui_import_overcount :
    (∀ (exec0 exec1 : Stmt → Bool) (pk tname : String) (data : List Row),
       (gui_import_json exec0 pk tname data).1 = data.countP (guiRowKept pk) ∧
       (gui_import_json exec0 pk tname data).1 = (gui_import_json exec1 pk tname data).1) ∧
    (∀ (ok : Bool) (fetched : List Row) (q : Stmt), isSelectText q.text = false →
       guiExecute ok fetched q = none) ∧
    gui_import_json c10Oracle "player_id" "PLAYERS" c10Rows = (2, 1) ∧
    (gui_import_json c10Oracle "player_id" "PLAYERS" c10Rows).2 <
      (gui_import_json c10Oracle "player_id" "PLAYERS" c10Rows).1 := by
  have hcount : ∀ (exec0 : Stmt → Bool) (pk tname : String) (data : List Row),
      (gui_import_json exec0 pk tname data).1 = data.countP (guiRowKept pk) := by
    intro exec0 pk tname data
    unfold gui_import_json
    rw [gui_foldl_count exec0 pk tname data (0, 0)]
    rw [Nat.zero_add]
  refine ⟨fun exec0 exec1 pk tname data => ⟨hcount exec0 pk tname data, ?_⟩, ?_, rfl, by decide⟩
  · rw [hcount exec0 pk tname data, hcount exec1 pk tname data]
  · intro ok fetched q h
    cases ok <;> simp [guiExecute, h]

/-- Witness for C10's execute conjunct at a concrete input: a successful
INSERT returns None, exactly like a failed one. -/
theorem C10_gui_import_overcount_witness :
    guiExecute true [] ⟨"INSERT INTO PLAYERS (nickname) VALUES (%s)", [Value.str "a"]⟩ =
      none :=
  C10_gui_import_overcount.2.1 true []
    ⟨"INSERT INTO PLAYERS (nickname) VALUES (%s)", [Value.str "a"]⟩ (by rfl)
